import Mathlib

/-!
Verification of the advisory-pipeline specification against a shallow
embedding of `backend/app/routers/chat_bot.py`.

External collaborators (language detection, translation, embedding, the
vector store, weather, chat completion) are modelled as an explicit
environment of pure functions; `ask_question` is a pure transcription of
the request handler that also returns a trace of the external calls it
made, so that call-count and call-argument properties can be stated.
-/

set_option maxRecDepth 4000

/-- Characterwise prefix test on lists of characters. -/
def listPrefixOf : List Char → List Char → Bool
  | [], _ => true
  | _ :: _, [] => false
  | a :: as, b :: bs => a == b && listPrefixOf as bs

/-- Substring containment test (Python `pat in s`), pattern first. -/
def listContainsPat (pat : List Char) : List Char → Bool
  | [] => listPrefixOf pat []
  | c :: cs => listPrefixOf pat (c :: cs) || listContainsPat pat cs

/-- Python `pat in s` on strings. -/
def strContains (s pat : String) : Bool :=
  listContainsPat pat.toList s.toList

/-- Fuel-driven worker for `pyRemoveAll`; with fuel at least the length of
the input the fuel never runs out. -/
def pyRemoveAllFuel (pat : List Char) : Nat → List Char → List Char
  | _, [] => []
  | 0, l => l
  | n + 1, c :: cs =>
    if listPrefixOf pat (c :: cs) = true then
      pyRemoveAllFuel pat n (cs.drop (pat.length - 1))
    else
      c :: pyRemoveAllFuel pat n cs

/-- Python `s.replace(pat, "")` on character lists: remove every
occurrence of a non-empty pattern, scanning left to right. -/
def pyRemoveAll (pat l : List Char) : List Char :=
  pyRemoveAllFuel pat l.length l

/-- Python `s.replace(pat, "")` on strings. -/
def strRemoveAll (s pat : String) : String :=
  String.mk (pyRemoveAll pat.toList s.toList)

/-- Worker for `pySplit`: accumulate the current word in reverse. -/
def pySplitList (acc : List Char) : List Char → List String
  | [] => if acc = [] then [] else [String.mk acc.reverse]
  | c :: cs =>
    if Char.isWhitespace c then
      if acc = [] then pySplitList [] cs
      else String.mk acc.reverse :: pySplitList [] cs
    else pySplitList (c :: acc) cs

/-- Python `s.split()`: split on whitespace runs, dropping empty pieces. -/
def pySplit (s : String) : List String :=
  pySplitList [] s.toList

/-- Python `s.strip()`: remove leading and trailing whitespace. -/
def pyStrip (s : String) : String :=
  String.mk
    (((s.toList.dropWhile Char.isWhitespace).reverse.dropWhile
        Char.isWhitespace).reverse)

/-- Python `s[:n]` by characters. -/
def strTake (s : String) (n : Nat) : String :=
  String.mk (s.toList.take n)

/-- Python `s.lower()` (ASCII case folding, as in the model). -/
def strLower (s : String) : String :=
  String.mk (s.toList.map Char.toLower)

/-- Membership-of-any-pattern test, mirroring
`any(pattern in question_lower for pattern in patterns)`. -/
def containsAny (s : String) (pats : List String) : Bool :=
  pats.any (fun p => strContains s p)

/-- Python truthiness of an optional numeric field (None and 0.0 are
falsy); coordinates are modelled as rationals. -/
def ratTruthy : Option Rat → Bool
  | none => false
  | some x => x != 0

/-- Request body of POST /ask (`AskRequest` in chat_bot.py). The optional
location defaults to the empty string; coordinates default to None. -/
structure AskRequest where
  question : String
  lang : String
  location : String
  latitude : Option Rat
  longitude : Option Rat
deriving DecidableEq

/-- Outcome of the handler: a normal `AskResponse` or a raised
`HTTPException` with status code and detail. -/
inductive AskResult where
  | ok (answer : String) (sources : List String)
  | httpError (status : Nat) (detail : String)
deriving DecidableEq

/-- Trace of the external calls the handler performed: translation calls
in the question direction and in the answer direction (text, src, dest),
embedding and store-query call counts, weather calls (location, lat,
lon), and generation calls (system prompt, user prompt, max_tokens). -/
structure Trace where
  qTranslations : List (String × String × String)
  aTranslations : List (String × String × String)
  embedCalls : Nat
  retrieveCalls : Nat
  weatherCalls : List (String × Option Rat × Option Rat)
  generateCalls : List (String × String × Nat)
deriving DecidableEq

/-- Environment of external collaborators, as pure functions. `retrieve`
models the ordered nearest-first store query (embedding in, chunk
contents out) and may fail with the text of the underlying error. -/
structure Env where
  detect : String → String
  translate : String → String → String → String
  single_embed : String → List Int
  retrieve : List Int → Except String (List String)
  get_weather : String → Option Rat → Option Rat → String
  chat_completion : String → String → Nat → String

/-- Greeting keyword list (chat_bot.py lines 62-67). -/
def greeting_patterns : List String :=
  ["hi", "hello", "hey", "greetings", "good morning", "good afternoon",
   "good evening", "howdy", "hola", "salut", "namaste",
   "how are you", "how r u", "how do you do", "what\x27s up", "whats up",
   "sup", "wassup", "how\x27s it going", "hows it going"]

/-- Introduction keyword list (chat_bot.py lines 68-71). -/
def intro_patterns : List String :=
  ["who are you", "what are you", "who am i talking to", "what is your name",
   "introduce yourself", "tell me about yourself"]

/-- Thanks keyword list (chat_bot.py line 72). -/
def thanks_patterns : List String :=
  ["thank", "thanks", "thx", "appreciate"]

/-- Canned greeting reply (chat_bot.py lines 76-81). -/
def greeting_response : String :=
  "Hello! I\x27m Nile Care AI Farm Advisory, your agricultural assistant. I\x27m here to help answer your farming questions, provide crop advice, discuss pest management, soil health, weather impacts, and more. How can I assist you today?"

/-- Canned introduction reply (chat_bot.py lines 88-94). -/
def intro_response : String :=
  "I am Nile Care AI Farm Advisory, your trusted agricultural assistant. I\x27m designed to help farmers and agricultural professionals with farming-related queries, provide guidance on crop management, pest control, soil health, weather conditions, and offer tailored advice based on agricultural best practices. What would you like to know about farming?"

/-- Canned thanks reply (chat_bot.py line 101). -/
def thanks_response : String :=
  "You\x27re welcome! Feel free to ask me anything about farming and agriculture."

/-- Fixed insufficient-information answer (chat_bot.py line 140). -/
def insufficient_response : String :=
  "I\x27m sorry, I don\x27t have enough information to answer that question."

/-- Detail of the connectivity-class 503 (chat_bot.py lines 125-130). -/
def dbConnectivityDetail : String :=
  "Unable to connect to the database. This may be due to network issues, IPv6 connectivity problems, or incorrect database credentials. For local development, consider setting up a local PostgreSQL instance. For Supabase, use the Connection Pooler host instead of the direct database host."

/-- Fixed system prompt (chat_bot.py lines 153-176), with the source
file's literal mojibake sequence reproduced via unicode escapes. -/
def system_prompt : String :=
  "You are Nile Care AI Farm Advisory, a specialized agricultural assistant. Your role is to provide concise, clear, and informative answers based solely on the context provided. Always answer in the language requested, without introducing any other languages. If the question cannot be answered from the provided context, acknowledge this by saying, \x27I don\x27t know.\x27\n\n- **Weather inquiries**: If asked for the weather, offer a concise, accurate report based only on the available data. Do not add extra commentary or suggestions.\n\n- **Tone & Clarity**: Your responses should be professional, easy to understand, and accurate. If the context includes technical terms or complex concepts, simplify them for the userâ€™s understanding while maintaining accuracy.\n\n- **Consistency & Transparency**: If you\x27re unsure about something, communicate that clearly and refrain from guessing. Always prioritize honesty in your responses.\n\nIf the user greets you (e.g., \x27Hi\x27, \x27Hello\x27, \x27Good morning\x27), respond in a friendly, human-like manner, such as:\n\x27Hello! How can I assist you with your farming needs today?\x27 or \x27Hi there! How can I help with your agricultural questions?\x27If asked \x27Who am I talking to?\x27 or something similar, you should respond with: \x27You are talking to Nile Care AI Farm Advisory, your trusted agricultural assistant designed to help with farming-related queries and provide tailored guidance based on provided data.\x27Don\x27t include any list just return the answer in a paragraph format."

/-- Code-to-name language table with the Python `dict.get` default
(chat_bot.py lines 26-33 and line 181). -/
def lang_map_get (lang : String) : String :=
  if lang = "auto" then "Auto"
  else if lang = "en" then "English"
  else if lang = "am" then "Amharic"
  else if lang = "om" then "Affan Oromo"
  else if lang = "so" then "Somali"
  else if lang = "ti" then "Tigrinya"
  else "English"

/-- Artifact stripping (chat_bot.py lines 35-42): remove every `**`,
then every `>>>>`. -/
def clean_text (text : String) : String :=
  strRemoveAll (strRemoveAll text "**") ">>>>"

/-- Detected language of the raw question (chat_bot.py line 54). -/
def question_lang (env : Env) (req : AskRequest) : String :=
  env.detect req.question

/-- Source language used when translating the question to English
(chat_bot.py line 57). -/
def translateSrc (env : Env) (req : AskRequest) : String :=
  if req.lang ≠ "auto" then req.lang else question_lang env req

/-- English-normalized question (chat_bot.py lines 53-58). -/
def english_question (env : Env) (req : AskRequest) : String :=
  if question_lang env req ≠ "en" then
    env.translate req.question (translateSrc env req) "en"
  else req.question

/-- Question-direction translation calls (chat_bot.py lines 56-58). -/
def questionTranslations (env : Env) (req : AskRequest) :
    List (String × String × String) :=
  if question_lang env req ≠ "en" then
    [(req.question, translateSrc env req, "en")]
  else []

/-- Lower-cased, trimmed normalized question (chat_bot.py line 61). -/
def question_lower (env : Env) (req : AskRequest) : String :=
  pyStrip (strLower (english_question env req))

/-- Canned reply as returned, translated when both the requested and the
detected language differ from English (chat_bot.py lines 82-83). -/
def cannedReply (env : Env) (req : AskRequest) (r : String) : String :=
  if req.lang ≠ "en" ∧ question_lang env req ≠ "en" then
    env.translate r "en" (question_lang env req)
  else r

/-- Answer-direction translation calls of a canned-reply branch. -/
def cannedTranslations (env : Env) (req : AskRequest) (r : String) :
    List (String × String × String) :=
  if req.lang ≠ "en" ∧ question_lang env req ≠ "en" then
    [(r, "en", question_lang env req)]
  else []

/-- Detail string of the 503 raised on a store failure with error text
`e` (chat_bot.py lines 117-136). -/
def dbErrorDetail (e : String) : String :=
  if strContains (strLower e) "network is unreachable" = true ∨
     strContains (strLower e) "connection" = true then
    dbConnectivityDetail
  else
    "Database error: " ++ strTake e 200

/-- Python `sep.join(parts)`. -/
def joinSep (sep : String) : List String → String
  | [] => ""
  | [s] => s
  | s :: rest => s ++ sep ++ joinSep sep rest

/-- Concatenated retrieved chunk texts (chat_bot.py line 138). -/
def baseContext (docs : List String) : String :=
  joinSep "\n\n" docs

/-- Location-based weather section appended to the context
(chat_bot.py lines 144-146), empty when no location is supplied. -/
def weatherSuffix1 (env : Env) (req : AskRequest) : String :=
  if req.location ≠ "" then
    "\n\nWeather information for " ++ req.location ++ ":\n" ++
      env.get_weather req.location none none
  else ""

/-- Rendering of an optional coordinate inside the context f-string. -/
def showCoord : Option Rat → String
  | none => "None"
  | some q => toString q

/-- Coordinates-based weather section appended to the context
(chat_bot.py lines 148-150), empty when a coordinate is falsy. -/
def weatherSuffix2 (env : Env) (req : AskRequest) : String :=
  if ratTruthy req.latitude = true ∧ ratTruthy req.longitude = true then
    "\n\nWeather information for coordinates (" ++ showCoord req.latitude ++
      ", " ++ showCoord req.longitude ++ "):\n" ++
      env.get_weather "" req.latitude req.longitude
  else ""

/-- Final value of the mutable `weather_data` variable: the coordinates
call overwrites the location call (chat_bot.py lines 143-150). -/
def finalWeather (env : Env) (req : AskRequest) : Option String :=
  if ratTruthy req.latitude = true ∧ ratTruthy req.longitude = true then
    some (env.get_weather "" req.latitude req.longitude)
  else if req.location ≠ "" then
    some (env.get_weather req.location none none)
  else none

/-- Weather calls issued during context augmentation. -/
def weatherCallList (env : Env) (req : AskRequest) :
    List (String × Option Rat × Option Rat) :=
  (if req.location ≠ "" then
     [(req.location, (none : Option Rat), (none : Option Rat))]
   else []) ++
  (if ratTruthy req.latitude = true ∧ ratTruthy req.longitude = true then
     [(("" : String), req.latitude, req.longitude)]
   else [])

/-- Rendering of the `weather_data` slot of the user prompt: Python
string truthiness supplies the default (chat_bot.py line 186). -/
def weatherField : Option String → String
  | none => "No weather data provided."
  | some w => if w = "" then "No weather data provided." else w

/-- Per-request user prompt f-string (chat_bot.py lines 178-187). -/
def mkPrompt (q lang ctx : String) (wd : Option String) : String :=
  "Use the following context to answer the\n\n    question: " ++ q ++
  "\n    user language: " ++ lang_map_get lang ++
  " just to be clear use english for the answer whatever the user language is.\n\n    Context:\n    " ++
  ctx ++ "\n    Weather Data:\n    " ++ weatherField wd ++ "\n    "

/-- Assembled context including any weather sections. -/
def fullContext (env : Env) (req : AskRequest) (docs : List String) : String :=
  baseContext docs ++ weatherSuffix1 env req ++ weatherSuffix2 env req

/-- User prompt of the single generation call. -/
def userPrompt (env : Env) (req : AskRequest) (docs : List String) : String :=
  mkPrompt (english_question env req) req.lang (fullContext env req docs)
    (finalWeather env req)

/-- Raw generated answer (chat_bot.py line 189). -/
def rawAnswer (env : Env) (req : AskRequest) (docs : List String) : String :=
  env.chat_completion system_prompt (userPrompt env req docs) 512

/-- Destination of the answer back-translation: the detected language,
with Python falsy-fallback to English (chat_bot.py line 194). -/
def answerDest (env : Env) (req : AskRequest) : String :=
  if question_lang env req = "" then "en" else question_lang env req

/-- Final answer after cleaning and optional back-translation
(chat_bot.py lines 191-194). -/
def finalAnswer (env : Env) (req : AskRequest) (docs : List String) : String :=
  if req.lang ≠ "en" ∨ question_lang env req ≠ "en" then
    env.translate (clean_text (rawAnswer env req docs)) "en" (answerDest env req)
  else clean_text (rawAnswer env req docs)

/-- Answer-direction translation calls of the full pipeline. -/
def answerTranslations (env : Env) (req : AskRequest) (docs : List String) :
    List (String × String × String) :=
  if req.lang ≠ "en" ∨ question_lang env req ≠ "en" then
    [(clean_text (rawAnswer env req docs), "en", answerDest env req)]
  else []

/-- Tail of the handler once retrieval produced a non-blank context
(chat_bot.py lines 143-202). -/
def fullPipeline (env : Env) (req : AskRequest) (docs : List String) :
    AskResult × Trace :=
  (AskResult.ok (finalAnswer env req docs) ["source1", "source2"],
   { qTranslations := questionTranslations env req,
     aTranslations := answerTranslations env req docs,
     embedCalls := 1, retrieveCalls := 1,
     weatherCalls := weatherCallList env req,
     generateCalls := [(system_prompt, userPrompt env req docs, 512)] })

/-- Shallow embedding of the POST /ask handler `ask_question`
(chat_bot.py lines 45-202), returning the response or raised error
together with the trace of external calls. -/
def ask_question (env : Env) (req : AskRequest) : AskResult × Trace :=
  if containsAny (question_lower env req) greeting_patterns = true ∧
     (pySplit (question_lower env req)).length ≤ 5 then
    (AskResult.ok (cannedReply env req greeting_response) [],
     { qTranslations := questionTranslations env req,
       aTranslations := cannedTranslations env req greeting_response,
       embedCalls := 0, retrieveCalls := 0, weatherCalls := [],
       generateCalls := [] })
  else if containsAny (question_lower env req) intro_patterns = true then
    (AskResult.ok (cannedReply env req intro_response) [],
     { qTranslations := questionTranslations env req,
       aTranslations := cannedTranslations env req intro_response,
       embedCalls := 0, retrieveCalls := 0, weatherCalls := [],
       generateCalls := [] })
  else if containsAny (question_lower env req) thanks_patterns = true ∧
          (pySplit (question_lower env req)).length ≤ 5 then
    (AskResult.ok (cannedReply env req thanks_response) [],
     { qTranslations := questionTranslations env req,
       aTranslations := cannedTranslations env req thanks_response,
       embedCalls := 0, retrieveCalls := 0, weatherCalls := [],
       generateCalls := [] })
  else
    match env.retrieve (env.single_embed (english_question env req)) with
    | Except.error e =>
      (AskResult.httpError 503 (dbErrorDetail e),
       { qTranslations := questionTranslations env req,
         aTranslations := [], embedCalls := 1, retrieveCalls := 1,
         weatherCalls := [], generateCalls := [] })
    | Except.ok docs =>
      if pyStrip (baseContext docs) = "" then
        (AskResult.ok insufficient_response [],
         { qTranslations := questionTranslations env req,
           aTranslations := [], embedCalls := 1, retrieveCalls := 1,
           weatherCalls := [], generateCalls := [] })
      else fullPipeline env req docs

/-- Greeting short-circuit branch of the handler, as an equation. -/
lemma ask_question_greeting (env : Env) (req : AskRequest)
    (hg : containsAny (question_lower env req) greeting_patterns = true)
    (hn : (pySplit (question_lower env req)).length ≤ 5) :
    ask_question env req =
      (AskResult.ok (cannedReply env req greeting_response) [],
       { qTranslations := questionTranslations env req,
         aTranslations := cannedTranslations env req greeting_response,
         embedCalls := 0, retrieveCalls := 0, weatherCalls := [],
         generateCalls := [] }) := by
  unfold ask_question
  rw [if_pos ⟨hg, hn⟩]

/-- Introduction short-circuit branch of the handler, as an equation. -/
lemma ask_question_intro (env : Env) (req : AskRequest)
    (h1 : ¬(containsAny (question_lower env req) greeting_patterns = true ∧
            (pySplit (question_lower env req)).length ≤ 5))
    (h2 : containsAny (question_lower env req) intro_patterns = true) :
    ask_question env req =
      (AskResult.ok (cannedReply env req intro_response) [],
       { qTranslations := questionTranslations env req,
         aTranslations := cannedTranslations env req intro_response,
         embedCalls := 0, retrieveCalls := 0, weatherCalls := [],
         generateCalls := [] }) := by
  unfold ask_question
  rw [if_neg h1, if_pos h2]

/-- Thanks short-circuit branch of the handler, as an equation. -/
lemma ask_question_thanks (env : Env) (req : AskRequest)
    (h1 : ¬(containsAny (question_lower env req) greeting_patterns = true ∧
            (pySplit (question_lower env req)).length ≤ 5))
    (h2 : ¬ containsAny (question_lower env req) intro_patterns = true)
    (h3 : containsAny (question_lower env req) thanks_patterns = true ∧
          (pySplit (question_lower env req)).length ≤ 5) :
    ask_question env req =
      (AskResult.ok (cannedReply env req thanks_response) [],
       { qTranslations := questionTranslations env req,
         aTranslations := cannedTranslations env req thanks_response,
         embedCalls := 0, retrieveCalls := 0, weatherCalls := [],
         generateCalls := [] }) := by
  unfold ask_question
  rw [if_neg h1, if_neg h2, if_pos h3]

/-- Store-failure branch of the handler, as an equation. -/
lemma ask_question_dbfail (env : Env) (req : AskRequest) (e : String)
    (h1 : ¬(containsAny (question_lower env req) greeting_patterns = true ∧
            (pySplit (question_lower env req)).length ≤ 5))
    (h2 : ¬ containsAny (question_lower env req) intro_patterns = true)
    (h3 : ¬(containsAny (question_lower env req) thanks_patterns = true ∧
            (pySplit (question_lower env req)).length ≤ 5))
    (hr : env.retrieve (env.single_embed (english_question env req)) =
          Except.error e) :
    ask_question env req =
      (AskResult.httpError 503 (dbErrorDetail e),
       { qTranslations := questionTranslations env req,
         aTranslations := [], embedCalls := 1, retrieveCalls := 1,
         weatherCalls := [], generateCalls := [] }) := by
  unfold ask_question
  rw [if_neg h1, if_neg h2, if_neg h3, hr]

/-- Successful-retrieval branch of the handler, as an equation. -/
lemma ask_question_retrieved (env : Env) (req : AskRequest)
    (docs : List String)
    (h1 : ¬(containsAny (question_lower env req) greeting_patterns = true ∧
            (pySplit (question_lower env req)).length ≤ 5))
    (h2 : ¬ containsAny (question_lower env req) intro_patterns = true)
    (h3 : ¬(containsAny (question_lower env req) thanks_patterns = true ∧
            (pySplit (question_lower env req)).length ≤ 5))
    (hr : env.retrieve (env.single_embed (english_question env req)) =
          Except.ok docs) :
    ask_question env req =
      if pyStrip (baseContext docs) = "" then
        (AskResult.ok insufficient_response [],
         { qTranslations := questionTranslations env req,
           aTranslations := [], embedCalls := 1, retrieveCalls := 1,
           weatherCalls := [], generateCalls := [] })
      else fullPipeline env req docs := by
  unfold ask_question
  rw [if_neg h1, if_neg h2, if_neg h3, hr]

/-- Question-direction translation happens at most once. -/
lemma questionTranslations_len (env : Env) (req : AskRequest) :
    (questionTranslations env req).length ≤ 1 := by
  unfold questionTranslations; split <;> simp

/-- Canned-branch answer-direction translation happens at most once. -/
lemma cannedTranslations_len (env : Env) (req : AskRequest) (r : String) :
    (cannedTranslations env req r).length ≤ 1 := by
  unfold cannedTranslations; split <;> simp

/-- Full-pipeline answer-direction translation happens at most once. -/
lemma answerTranslations_len (env : Env) (req : AskRequest)
    (docs : List String) : (answerTranslations env req docs).length ≤ 1 := by
  unfold answerTranslations; split <;> simp

/-- C1: a request whose normalized, lower-cased, trimmed question
contains a greeting pattern and has at most 5 whitespace-separated
tokens is answered by the canned greeting (translated only when both
the requested and detected languages differ from English) with an empty
source list, and no embedding, store-retrieval or generation call is
made. -/
theorem C1_greeting_short_circuit (env : Env) (req : AskRequest)
    (hg : containsAny (question_lower env req) greeting_patterns = true)
    (hn : (pySplit (question_lower env req)).length ≤ 5) :
    (ask_question env req).1 =
      AskResult.ok (cannedReply env req greeting_response) [] ∧
    (ask_question env req).2.embedCalls = 0 ∧
    (ask_question env req).2.retrieveCalls = 0 ∧
    (ask_question env req).2.generateCalls = [] := by
  rw [ask_question_greeting env req hg hn]
  exact ⟨rfl, rfl, rfl, rfl⟩

/-- Witness for C1 at question "Hello", lang "en". -/
theorem C1_greeting_short_circuit_witness :
    (containsAny (question_lower
        { detect := fun _ => "en", translate := fun t _ d => t ++ "|" ++ d,
          single_embed := fun _ => [1],
          retrieve := fun _ => Except.ok ["chunk one", "chunk two"],
          get_weather := fun loc _ _ => if loc = "" then "coordinate weather" else "location weather",
          chat_completion := fun _ _ _ => "generated answer" }
        { question := "Hello", lang := "en", location := "",
          latitude := none, longitude := none }) greeting_patterns = true) ∧
    (ask_question
        { detect := fun _ => "en", translate := fun t _ d => t ++ "|" ++ d,
          single_embed := fun _ => [1],
          retrieve := fun _ => Except.ok ["chunk one", "chunk two"],
          get_weather := fun loc _ _ => if loc = "" then "coordinate weather" else "location weather",
          chat_completion := fun _ _ _ => "generated answer" }
        { question := "Hello", lang := "en", location := "",
          latitude := none, longitude := none }).2.generateCalls = [] :=
  ⟨by decide,
   (C1_greeting_short_circuit _ _ (by decide) (by decide)).2.2.2⟩

/-- C2: when retrieval succeeds but the concatenated chunk text is
blank, the handler returns exactly the fixed insufficient-information
answer with an empty source list and never calls generation, whatever
the requested or detected language. -/
theorem C2_insufficient_context (env : Env) (req : AskRequest)
    (docs : List String)
    (h1 : ¬(containsAny (question_lower env req) greeting_patterns = true ∧
            (pySplit (question_lower env req)).length ≤ 5))
    (h2 : ¬ containsAny (question_lower env req) intro_patterns = true)
    (h3 : ¬(containsAny (question_lower env req) thanks_patterns = true ∧
            (pySplit (question_lower env req)).length ≤ 5))
    (hr : env.retrieve (env.single_embed (english_question env req)) =
          Except.ok docs)
    (hb : pyStrip (baseContext docs) = "") :
    (ask_question env req).1 = AskResult.ok insufficient_response [] ∧
    (ask_question env req).2.generateCalls = [] ∧
    (ask_question env req).2.aTranslations = [] := by
  rw [ask_question_retrieved env req docs h1 h2 h3 hr, if_pos hb]
  exact ⟨rfl, rfl, rfl⟩

/-- Witness for C2: blank chunks behind a substantive question. -/
theorem C2_insufficient_context_witness :
    (ask_question
        { detect := fun _ => "en", translate := fun t _ d => t ++ "|" ++ d,
          single_embed := fun _ => [1],
          retrieve := fun _ => Except.ok ["", "  "],
          get_weather := fun _ _ _ => "sunny",
          chat_completion := fun _ _ _ => "generated answer" }
        { question := "What fertilizer suits tomatoes?", lang := "am",
          location := "", latitude := none, longitude := none }).1 =
      AskResult.ok insufficient_response [] :=
  (C2_insufficient_context _ _ ["", "  "]
    (by decide) (by decide) (by decide) rfl (by decide)).1

/-- C3: a store failure is classified by its lowercased error text:
connectivity-class texts (containing "network is unreachable" or
"connection") raise the distinct connectivity 503 detail, any other
failure raises the generic database-error detail whose diagnostic part
is truncated to at most 200 characters, and no silent ok-result is
returned. -/
theorem C3_store_failure_classified (env : Env) (req : AskRequest)
    (e : String)
    (h1 : ¬(containsAny (question_lower env req) greeting_patterns = true ∧
            (pySplit (question_lower env req)).length ≤ 5))
    (h2 : ¬ containsAny (question_lower env req) intro_patterns = true)
    (h3 : ¬(containsAny (question_lower env req) thanks_patterns = true ∧
            (pySplit (question_lower env req)).length ≤ 5))
    (hr : env.retrieve (env.single_embed (english_question env req)) =
          Except.error e) :
    ((strContains (strLower e) "network is unreachable" = true ∨
      strContains (strLower e) "connection" = true) →
      (ask_question env req).1 =
        AskResult.httpError 503 dbConnectivityDetail) ∧
    ((strContains (strLower e) "network is unreachable" = false ∧
      strContains (strLower e) "connection" = false) →
      (ask_question env req).1 =
        AskResult.httpError 503 ("Database error: " ++ strTake e 200) ∧
      (strTake e 200).length ≤ 200) ∧
    (∀ a s, (ask_question env req).1 ≠ AskResult.ok a s) := by
  rw [ask_question_dbfail env req e h1 h2 h3 hr]
  refine ⟨fun hc => ?_, fun hc => ⟨?_, ?_⟩, fun a s hcon => ?_⟩
  · show AskResult.httpError 503 (dbErrorDetail e) = _
    unfold dbErrorDetail
    rw [if_pos hc]
  · show AskResult.httpError 503 (dbErrorDetail e) = _
    unfold dbErrorDetail
    rw [if_neg]
    simp [hc.1, hc.2]
  · have h : (strTake e 200).length = (e.toList.take 200).length := rfl
    rw [h, List.length_take]
    exact Nat.min_le_left _ _
  · exact AskResult.noConfusion hcon

/-- Witness for C3 at the error text "connection refused". -/
theorem C3_store_failure_classified_witness :
    (ask_question
        { detect := fun _ => "en", translate := fun t _ d => t ++ "|" ++ d,
          single_embed := fun _ => [1],
          retrieve := fun _ => Except.error "connection refused",
          get_weather := fun _ _ _ => "sunny",
          chat_completion := fun _ _ _ => "generated answer" }
        { question := "What fertilizer suits tomatoes?", lang := "en",
          location := "", latitude := none, longitude := none }).1 =
      AskResult.httpError 503 dbConnectivityDetail :=
  (C3_store_failure_classified _ _ "connection refused"
    (by decide) (by decide) (by decide) rfl).1 (Or.inr (by decide))

/-- C4: on every exit path of the handler, the question-direction and
the answer-direction translation are each invoked at most once. -/
theorem C4_translation_at_most_once (env : Env) (req : AskRequest) :
    ((ask_question env req).2.qTranslations).length ≤ 1 ∧
    ((ask_question env req).2.aTranslations).length ≤ 1 := by
  have hq := questionTranslations_len env req
  by_cases hg : containsAny (question_lower env req) greeting_patterns = true ∧
      (pySplit (question_lower env req)).length ≤ 5
  · rw [ask_question_greeting env req hg.1 hg.2]
    exact ⟨hq, cannedTranslations_len env req _⟩
  by_cases hi : containsAny (question_lower env req) intro_patterns = true
  · rw [ask_question_intro env req hg hi]
    exact ⟨hq, cannedTranslations_len env req _⟩
  by_cases ht : containsAny (question_lower env req) thanks_patterns = true ∧
      (pySplit (question_lower env req)).length ≤ 5
  · rw [ask_question_thanks env req hg hi ht]
    exact ⟨hq, cannedTranslations_len env req _⟩
  cases hr : env.retrieve (env.single_embed (english_question env req)) with
  | error e =>
    rw [ask_question_dbfail env req e hg hi ht hr]
    exact ⟨hq, by simp⟩
  | ok docs =>
    rw [ask_question_retrieved env req docs hg hi ht hr]
    split_ifs with hb
    · exact ⟨hq, by simp⟩
    · exact ⟨hq, answerTranslations_len env req docs⟩

/-- Marking translator used by the test environments: tags the text with
the destination so that any translation is observable. -/
def markTranslate (t _s d : String) : String :=
  "[" ++ d ++ "]" ++ t

/-- Test environment whose detector always reports English. -/
def envDetEn : Env :=
  { detect := fun _ => "en", translate := markTranslate,
    single_embed := fun _ => [1],
    retrieve := fun _ => Except.ok ["chunk one", "chunk two"],
    get_weather := fun loc _ _ =>
      if loc = "" then "coordinate weather" else "location weather",
    chat_completion := fun _ _ _ => "generated answer" }

/-- Test environment whose detector always reports Amharic. -/
def envDetAm : Env :=
  { detect := fun _ => "am", translate := markTranslate,
    single_embed := fun _ => [1],
    retrieve := fun _ => Except.ok ["chunk one", "chunk two"],
    get_weather := fun loc _ _ =>
      if loc = "" then "coordinate weather" else "location weather",
    chat_completion := fun _ _ _ => "generated answer" }

/-- Greeting request with a non-English requested language. -/
def reqHelloAm : AskRequest :=
  { question := "Hello", lang := "am", location := "",
    latitude := none, longitude := none }

/-- C5 counterexample: the requested language is Amharic (not English)
and the question is greeting-short-circuited, yet the canned greeting is
returned untranslated because the detected language is English — the
code also requires the detected language to differ from English. -/
theorem C5_counterexample_untranslated_greeting :
    reqHelloAm.lang ≠ "en" ∧
    containsAny (question_lower envDetEn reqHelloAm) greeting_patterns = true ∧
    (pySplit (question_lower envDetEn reqHelloAm)).length ≤ 5 ∧
    (ask_question envDetEn reqHelloAm).1 = AskResult.ok greeting_response [] ∧
    (ask_question envDetEn reqHelloAm).2.aTranslations = [] := by
  refine ⟨by decide, by decide, by decide, ?_, ?_⟩ <;>
    · rw [ask_question_greeting envDetEn reqHelloAm (by decide) (by decide)]
      decide

/-- C5 (amended): a greeting-short-circuited request has its canned
greeting translated when both the requested language and the detected
language differ from English, and the destination of that translation
is the detected question language. -/
theorem C5_greeting_translated_amended (env : Env) (req : AskRequest)
    (hg : containsAny (question_lower env req) greeting_patterns = true)
    (hn : (pySplit (question_lower env req)).length ≤ 5)
    (hl : req.lang ≠ "en") (hd : question_lang env req ≠ "en") :
    (ask_question env req).1 =
      AskResult.ok
        (env.translate greeting_response "en" (question_lang env req)) [] ∧
    (ask_question env req).2.aTranslations =
      [(greeting_response, "en", question_lang env req)] := by
  rw [ask_question_greeting env req hg hn]
  constructor
  · show AskResult.ok (cannedReply env req greeting_response) [] = _
    unfold cannedReply
    rw [if_pos ⟨hl, hd⟩]
  · show cannedTranslations env req greeting_response = _
    unfold cannedTranslations
    rw [if_pos ⟨hl, hd⟩]

/-- Witness for the amended C5 with detected language Amharic. -/
theorem C5_greeting_translated_amended_witness :
    (ask_question envDetAm reqHelloAm).1 =
      AskResult.ok
        (envDetAm.translate greeting_response "en"
          (question_lang envDetAm reqHelloAm)) [] ∧
    (ask_question envDetAm reqHelloAm).2.aTranslations =
      [(greeting_response, "en", question_lang envDetAm reqHelloAm)] :=
  C5_greeting_translated_amended envDetAm reqHelloAm
    (by decide) (by decide) (by decide) (by decide)

/-- Substantive request carrying the falsy-but-valid latitude 0.0. -/
def reqLatZero : AskRequest :=
  { question := "What fertilizer suits tomatoes?", lang := "en",
    location := "", latitude := some 0, longitude := some 38 }

/-- C6 evaluation at the failing input: both coordinates are present
(latitude 0.0, longitude 38.0) but the Python truthiness test drops the
falsy latitude, so no weather call is made at all even though the full
pipeline runs. -/
theorem C6_zero_coordinate_dropped :
    reqLatZero.latitude = some 0 ∧
    reqLatZero.longitude = some 38 ∧
    ratTruthy reqLatZero.latitude = false ∧
    (ask_question envDetEn reqLatZero).2.weatherCalls = [] ∧
    (ask_question envDetEn reqLatZero).2.generateCalls.length = 1 := by
  refine ⟨rfl, rfl, by decide, ?_, ?_⟩ <;>
    · rw [ask_question_retrieved envDetEn reqLatZero ["chunk one", "chunk two"]
          (by decide) (by decide) (by decide) rfl, if_neg (by decide)]
      decide

/-- Associativity of string concatenation, via the underlying lists. -/
lemma strAppend_assoc : ∀ (a b c : String), a ++ b ++ c = a ++ (b ++ c)
  | ⟨a⟩, ⟨b⟩, ⟨c⟩ => congrArg String.mk (List.append_assoc a b c)

/-- Appending the empty string is the identity. -/
lemma strAppend_empty : ∀ (a : String), a ++ "" = a
  | ⟨l⟩ => congrArg String.mk (List.append_nil l)

/-- Test environment retrieving the single chunk "c". -/
def envOneChunk : Env :=
  { detect := fun _ => "en", translate := markTranslate,
    single_embed := fun _ => [1],
    retrieve := fun _ => Except.ok ["c"],
    get_weather := fun loc _ _ =>
      if loc = "" then "coordinate weather" else "location weather",
    chat_completion := fun _ _ _ => "generated answer" }

/-- Substantive request naming a location and no coordinates. -/
def reqAddis : AskRequest :=
  { question := "What fertilizer suits tomatoes?", lang := "en",
    location := "Addis Ababa", latitude := none, longitude := none }

/-- C7 counterexample: retrieval returns the single chunk "c", yet the
Context portion of the generation prompt is not the bare chunk
concatenation — the appended location weather section sits inside it. -/
theorem C7_counterexample_context_not_bare_join :
    envOneChunk.retrieve (envOneChunk.single_embed
      (english_question envOneChunk reqAddis)) = Except.ok ["c"] ∧
    (ask_question envOneChunk reqAddis).2.generateCalls.length = 1 ∧
    ((ask_question envOneChunk reqAddis).2.generateCalls.all
      (fun g => !(strContains g.2.1 "Context:\n    c\n    Weather Data:")))
      = true ∧
    ((ask_question envOneChunk reqAddis).2.generateCalls.all
      (fun g => strContains g.2.1
        "Context:\n    c\n\nWeather information for Addis Ababa:\nlocation weather\n    Weather Data:"))
      = true := by
  refine ⟨rfl, ?_, ?_, ?_⟩ <;>
    · rw [ask_question_retrieved envOneChunk reqAddis ["c"]
          (by decide) (by decide) (by decide) rfl, if_neg (by decide)]
      decide

/-- C7 (amended): on the non-short-circuited, non-blank-context path the
generation service is invoked exactly once with max_tokens 512; the
Context portion of its user prompt is the retrieved chunk contents
joined with blank-line separators in retrieval (nearest-first) order,
followed by the appended weather sections, and equals the bare join
when no weather augmentation applies. -/
theorem C7_generation_once_amended (env : Env) (req : AskRequest)
    (docs : List String)
    (h1 : ¬(containsAny (question_lower env req) greeting_patterns = true ∧
            (pySplit (question_lower env req)).length ≤ 5))
    (h2 : ¬ containsAny (question_lower env req) intro_patterns = true)
    (h3 : ¬(containsAny (question_lower env req) thanks_patterns = true ∧
            (pySplit (question_lower env req)).length ≤ 5))
    (hr : env.retrieve (env.single_embed (english_question env req)) =
          Except.ok docs)
    (hb : ¬ pyStrip (baseContext docs) = "") :
    (ask_question env req).2.generateCalls =
      [(system_prompt,
        mkPrompt (english_question env req) req.lang
          (fullContext env req docs) (finalWeather env req), 512)] ∧
    (∃ s, fullContext env req docs = baseContext docs ++ s) ∧
    (req.location = "" → ratTruthy req.latitude = false →
      fullContext env req docs = baseContext docs) := by
  rw [ask_question_retrieved env req docs h1 h2 h3 hr, if_neg hb]
  refine ⟨rfl, ⟨weatherSuffix1 env req ++ weatherSuffix2 env req, ?_⟩,
    fun hloc hlat => ?_⟩
  · exact strAppend_assoc _ _ _
  · unfold fullContext weatherSuffix1 weatherSuffix2
    rw [if_neg (fun h => h hloc), if_neg (fun h => ?_)]
    · show baseContext docs ++ "" ++ "" = baseContext docs
      rw [strAppend_assoc, show (("" : String) ++ "") = "" from rfl,
        strAppend_empty]
    · rw [hlat] at h
      exact Bool.false_ne_true h.1

/-- Substantive request with no location and no coordinates. -/
def reqPlain : AskRequest :=
  { question := "What fertilizer suits tomatoes?", lang := "en",
    location := "", latitude := none, longitude := none }

/-- Witness for the amended C7 on a request without weather data. -/
theorem C7_generation_once_amended_witness :
    (ask_question envOneChunk reqPlain).2.generateCalls =
      [(system_prompt,
        mkPrompt (english_question envOneChunk reqPlain) reqPlain.lang
          (fullContext envOneChunk reqPlain ["c"])
          (finalWeather envOneChunk reqPlain), 512)] ∧
    fullContext envOneChunk reqPlain ["c"] = baseContext ["c"] :=
  ⟨(C7_generation_once_amended envOneChunk reqPlain ["c"]
      (by decide) (by decide) (by decide) rfl (by decide)).1,
   (C7_generation_once_amended envOneChunk reqPlain ["c"]
      (by decide) (by decide) (by decide) rfl (by decide)).2.2
      rfl (by decide)⟩

/-- Length of the leading run of the character `ch`. -/
def leadCount (ch : Char) : List Char → Nat
  | [] => 0
  | c :: cs => if c = ch then leadCount ch cs + 1 else 0

/-- A constant pattern is a prefix exactly when the leading run is long
enough. -/
lemma listPrefixOf_replicate (ch : Char) :
    ∀ (k : Nat) (l : List Char),
      listPrefixOf (List.replicate k ch) l = true ↔ k ≤ leadCount ch l := by
  intro k
  induction k with
  | zero => intro l; simp [listPrefixOf]
  | succ k ih =>
    intro l
    cases l with
    | nil =>
      rw [List.replicate_succ]
      simp [listPrefixOf, leadCount]
    | cons c cs =>
      rw [List.replicate_succ]
      show (ch == c && listPrefixOf (List.replicate k ch) cs) = true ↔ _
      by_cases hc : c = ch
      · subst hc
        simp only [beq_self_eq_true, Bool.true_and, ih]
        have hl : leadCount c (c :: cs) = leadCount c cs + 1 := by
          simp [leadCount]
        rw [hl]
        omega
      · have hb : (ch == c) = false := by
          simp only [beq_eq_false_iff_ne]
          exact fun h => hc h.symm
        have hl : leadCount ch (c :: cs) = 0 := by simp [leadCount, hc]
        simp [hb, hl]

/-- Dropping into the leading run shortens it by exactly the dropped
amount. -/
lemma leadCount_drop (ch : Char) :
    ∀ (k : Nat) (l : List Char), k ≤ leadCount ch l →
      leadCount ch (l.drop k) = leadCount ch l - k := by
  intro k
  induction k with
  | zero => intro l h; simp
  | succ k ih =>
    intro l h
    cases l with
    | nil => simp [leadCount] at h
    | cons c cs =>
      by_cases hc : c = ch
      · subst hc
        have hl : leadCount c (c :: cs) = leadCount c cs + 1 := by
          simp [leadCount]
        rw [List.drop_succ_cons, ih cs (by omega), hl]
        omega
      · have hl : leadCount ch (c :: cs) = 0 := by simp [leadCount, hc]
        rw [hl] at h
        exact absurd h (by omega)

/-- Core invariant of the removal pass for a constant pattern of length
`k`: the leading run of the output is the input's leading run modulo
`k`, and the output contains no occurrence of the pattern at all. -/
lemma pyRemoveAllFuel_replicate (ch : Char) (k : Nat) (hk : 0 < k) :
    ∀ (n : Nat) (l : List Char), l.length ≤ n →
      leadCount ch (pyRemoveAllFuel (List.replicate k ch) n l) =
        leadCount ch l % k ∧
      listContainsPat (List.replicate k ch)
        (pyRemoveAllFuel (List.replicate k ch) n l) = false := by
  have hnil : ∀ m, pyRemoveAllFuel (List.replicate k ch) m [] = [] := by
    intro m; cases m <;> rfl
  have hcnil : listContainsPat (List.replicate k ch) [] = false := by
    show listPrefixOf (List.replicate k ch) [] = false
    cases hp : listPrefixOf (List.replicate k ch) [] with
    | false => rfl
    | true =>
      have := (listPrefixOf_replicate ch k []).mp hp
      simp [leadCount] at this
      omega
  intro n
  induction n with
  | zero =>
    intro l hl
    have : l = [] := List.eq_nil_of_length_eq_zero (Nat.le_zero.mp hl)
    subst this
    rw [hnil]
    exact ⟨by simp [leadCount], hcnil⟩
  | succ n ih =>
    intro l hl
    cases l with
    | nil =>
      rw [hnil]
      exact ⟨by simp [leadCount], hcnil⟩
    | cons c cs =>
      have hcs : cs.length ≤ n := by
        have : (c :: cs).length = cs.length + 1 := rfl
        omega
      have heq : pyRemoveAllFuel (List.replicate k ch) (n + 1) (c :: cs) =
          if listPrefixOf (List.replicate k ch) (c :: cs) = true then
            pyRemoveAllFuel (List.replicate k ch) n
              (cs.drop ((List.replicate k ch).length - 1))
          else c :: pyRemoveAllFuel (List.replicate k ch) n cs := rfl
      rw [heq]
      by_cases hp : listPrefixOf (List.replicate k ch) (c :: cs) = true
      · rw [if_pos hp]
        have hkl : k ≤ leadCount ch (c :: cs) :=
          (listPrefixOf_replicate ch k _).mp hp
        have hlen : (cs.drop ((List.replicate k ch).length - 1)).length ≤ n := by
          rw [List.length_drop]
          omega
        obtain ⟨ihl, ihc⟩ := ih _ hlen
        refine ⟨?_, ihc⟩
        rw [ihl]
        have hrep : (List.replicate k ch).length = k := by simp
        have hdrop : cs.drop (k - 1) = (c :: cs).drop k := by
          cases k with
          | zero => omega
          | succ k0 => simp [List.drop_succ_cons]
        rw [hrep, hdrop, leadCount_drop ch k (c :: cs) hkl]
        calc (leadCount ch (c :: cs) - k) % k
            = ((leadCount ch (c :: cs) - k) + k) % k :=
              (Nat.add_mod_right _ _).symm
          _ = leadCount ch (c :: cs) % k := by rw [Nat.sub_add_cancel hkl]
      · rw [if_neg hp]
        obtain ⟨ihl, ihc⟩ := ih cs hcs
        have hlt : leadCount ch (c :: cs) < k := by
          by_contra hge
          exact hp ((listPrefixOf_replicate ch k _).mpr (by omega))
        have hshape : listContainsPat (List.replicate k ch)
            (c :: pyRemoveAllFuel (List.replicate k ch) n cs) =
            (listPrefixOf (List.replicate k ch)
              (c :: pyRemoveAllFuel (List.replicate k ch) n cs) ||
             listContainsPat (List.replicate k ch)
              (pyRemoveAllFuel (List.replicate k ch) n cs)) := rfl
      -- leading-run bookkeeping split on whether the head continues a run
        by_cases hc : c = ch
        · subst hc
          have h1 : leadCount c (c :: cs) = leadCount c cs + 1 := by
            simp [leadCount]
          have h2 : leadCount c cs % k = leadCount c cs := by
            rw [Nat.mod_eq_of_lt]
            omega
          have h3 : leadCount c
              (c :: pyRemoveAllFuel (List.replicate k c) n cs) =
              leadCount c (pyRemoveAllFuel (List.replicate k c) n cs) + 1 := by
            simp [leadCount]
          constructor
          · rw [h3, ihl, h2, h1, Nat.mod_eq_of_lt (by omega)]
          · rw [hshape, ihc, Bool.or_false]
            cases hq : listPrefixOf (List.replicate k c)
                (c :: pyRemoveAllFuel (List.replicate k c) n cs) with
            | false => rfl
            | true =>
              have hk2 := (listPrefixOf_replicate c k _).mp hq
              rw [h3, ihl, h2] at hk2
              omega
        · have h1 : leadCount ch (c :: cs) = 0 := by simp [leadCount, hc]
          have h3 : leadCount ch
              (c :: pyRemoveAllFuel (List.replicate k ch) n cs) = 0 := by
            simp [leadCount, hc]
          constructor
          · rw [h1, h3, Nat.zero_mod]
          · rw [hshape, ihc, Bool.or_false]
            cases hq : listPrefixOf (List.replicate k ch)
                (c :: pyRemoveAllFuel (List.replicate k ch) n cs) with
            | false => rfl
            | true =>
              have hk2 := (listPrefixOf_replicate ch k _).mp hq
              rw [h3] at hk2
              omega

/-- Removing every occurrence of a constant pattern leaves a list free
of that pattern. -/
lemma pyRemoveAll_replicate_free (ch : Char) (k : Nat) (hk : 0 < k)
    (l : List Char) :
    listContainsPat (List.replicate k ch)
      (pyRemoveAll (List.replicate k ch) l) = false :=
  (pyRemoveAllFuel_replicate ch k hk l.length l le_rfl).2

/-- The second cleaning pass leaves no ">>>>" in its output. -/
lemma strRemoveAll_quad_free (t : String) :
    strContains (strRemoveAll t ">>>>") ">>>>" = false := by
  have h4 : (">>>>" : String).toList = List.replicate 4 '>' := by decide
  show listContainsPat (">>>>" : String).toList
    (strRemoveAll t ">>>>").toList = false
  have ht : (strRemoveAll t ">>>>").toList =
      pyRemoveAll ((">>>>" : String).toList) t.toList := rfl
  rw [ht, h4]
  exact pyRemoveAll_replicate_free '>' 4 (by omega) t.toList

/-- C8 counterexample: cleaning the generated answer "*>>>>*" removes
the ">>>>" artifact but thereby joins the two asterisks, so the cleaned
answer still contains the "**" artifact. -/
theorem C8_counterexample_marker_recreated :
    clean_text "*>>>>*" = "**" ∧
    strContains (clean_text "*>>>>*") "**" = true := by decide

/-- C8 (amended): clean_text strips the "**" occurrences and then the
">>>>" occurrences unconditionally (independent of language) before any
back-translation; the cleaned answer is guaranteed to contain no
">>>>", though the ">>>>" removal may re-create a "**". -/
theorem C8_cleaned_answer_quad_free (s : String) :
    strContains (clean_text s) ">>>>" = false :=
  strRemoveAll_quad_free (strRemoveAll s "**")

/-- C9: when a non-empty location and truthy coordinates are both
supplied, the single generation call's prompt carries the
coordinates-based report in its standalone Weather Data slot (the
second get_weather result overwrites the first), while the
location-based report appears only inside the assembled context, and
both weather calls are issued in order. -/
theorem C9_weather_block_overwritten (env : Env) (req : AskRequest)
    (docs : List String)
    (h1 : ¬(containsAny (question_lower env req) greeting_patterns = true ∧
            (pySplit (question_lower env req)).length ≤ 5))
    (h2 : ¬ containsAny (question_lower env req) intro_patterns = true)
    (h3 : ¬(containsAny (question_lower env req) thanks_patterns = true ∧
            (pySplit (question_lower env req)).length ≤ 5))
    (hr : env.retrieve (env.single_embed (english_question env req)) =
          Except.ok docs)
    (hb : ¬ pyStrip (baseContext docs) = "")
    (hloc : req.location ≠ "")
    (hco : ratTruthy req.latitude = true ∧ ratTruthy req.longitude = true) :
    (ask_question env req).2.generateCalls =
      [(system_prompt,
        mkPrompt (english_question env req) req.lang
          (baseContext docs ++
            ("\n\nWeather information for " ++ req.location ++ ":\n" ++
              env.get_weather req.location none none) ++
            ("\n\nWeather information for coordinates (" ++
              showCoord req.latitude ++ ", " ++ showCoord req.longitude ++
              "):\n" ++ env.get_weather "" req.latitude req.longitude))
          (some (env.get_weather "" req.latitude req.longitude)), 512)] ∧
    (ask_question env req).2.weatherCalls =
      [(req.location, none, none), ("", req.latitude, req.longitude)] := by
  rw [ask_question_retrieved env req docs h1 h2 h3 hr, if_neg hb]
  constructor
  · show [(system_prompt, userPrompt env req docs, 512)] = _
    unfold userPrompt fullContext weatherSuffix1 weatherSuffix2 finalWeather
    rw [if_pos hloc, if_pos hco, if_pos hco]
  · show weatherCallList env req = _
    unfold weatherCallList
    rw [if_pos hloc, if_pos hco]
    rfl

/-- Request with a location and truthy coordinates. -/
def reqAddisCoords : AskRequest :=
  { question := "What fertilizer suits tomatoes?", lang := "en",
    location := "Addis Ababa", latitude := some 9, longitude := some 38 }

/-- Witness for C9 at location "Addis Ababa" and coordinates (9, 38). -/
theorem C9_weather_block_overwritten_witness :
    (ask_question envOneChunk reqAddisCoords).2.generateCalls =
      [(system_prompt,
        mkPrompt (english_question envOneChunk reqAddisCoords)
          reqAddisCoords.lang
          (baseContext ["c"] ++
            ("\n\nWeather information for " ++ reqAddisCoords.location ++
              ":\n" ++ envOneChunk.get_weather reqAddisCoords.location
                none none) ++
            ("\n\nWeather information for coordinates (" ++
              showCoord reqAddisCoords.latitude ++ ", " ++
              showCoord reqAddisCoords.longitude ++ "):\n" ++
              envOneChunk.get_weather "" reqAddisCoords.latitude
                reqAddisCoords.longitude))
          (some (envOneChunk.get_weather "" reqAddisCoords.latitude
            reqAddisCoords.longitude)), 512)] ∧
    (ask_question envOneChunk reqAddisCoords).2.weatherCalls =
      [(reqAddisCoords.location, none, none),
       ("", reqAddisCoords.latitude, reqAddisCoords.longitude)] :=
  C9_weather_block_overwritten envOneChunk reqAddisCoords ["c"]
    (by decide) (by decide) (by decide) rfl (by decide) (by decide)
    ⟨by decide, by decide⟩

/-- C10: whenever the post-generation back-translation runs (requested
language or detected language differs from English), its destination is
the detected question language with the Python falsy-fallback to "en" —
never the requested lang field — and when the detected language is
English an identity-like translator returns the answer in English. -/
theorem C10_back_translation_destination (env : Env) (req : AskRequest)
    (docs : List String)
    (h1 : ¬(containsAny (question_lower env req) greeting_patterns = true ∧
            (pySplit (question_lower env req)).length ≤ 5))
    (h2 : ¬ containsAny (question_lower env req) intro_patterns = true)
    (h3 : ¬(containsAny (question_lower env req) thanks_patterns = true ∧
            (pySplit (question_lower env req)).length ≤ 5))
    (hr : env.retrieve (env.single_embed (english_question env req)) =
          Except.ok docs)
    (hb : ¬ pyStrip (baseContext docs) = "")
    (hcond : req.lang ≠ "en" ∨ question_lang env req ≠ "en") :
    (ask_question env req).2.aTranslations =
      [(clean_text (rawAnswer env req docs), "en", answerDest env req)] ∧
    answerDest env req =
      (if question_lang env req = "" then "en" else question_lang env req) ∧
    (ask_question env req).1 =
      AskResult.ok (env.translate (clean_text (rawAnswer env req docs))
        "en" (answerDest env req)) ["source1", "source2"] ∧
    (question_lang env req = "en" →
      (∀ t, env.translate t "en" "en" = t) →
      (ask_question env req).1 =
        AskResult.ok (clean_text (rawAnswer env req docs))
          ["source1", "source2"]) := by
  rw [ask_question_retrieved env req docs h1 h2 h3 hr, if_neg hb]
  refine ⟨?_, rfl, ?_, fun hen hid => ?_⟩
  · show answerTranslations env req docs = _
    unfold answerTranslations
    rw [if_pos hcond]
  · show AskResult.ok (finalAnswer env req docs) _ = _
    unfold finalAnswer
    rw [if_pos hcond]
  · show AskResult.ok (finalAnswer env req docs) _ = _
    unfold finalAnswer
    rw [if_pos hcond]
    unfold answerDest
    rw [hen, if_neg (by decide : ¬ ("en" : String) = ""), hid]

/-- Test environment with an identity-when-same-language translator and
English detection. -/
def envIdEn : Env :=
  { detect := fun _ => "en",
    translate := fun t s d => if s = d then t else "[" ++ d ++ "]" ++ t,
    single_embed := fun _ => [1],
    retrieve := fun _ => Except.ok ["chunk one"],
    get_weather := fun _ _ _ => "sunny",
    chat_completion := fun _ _ _ => "generated **answer**" }

/-- Non-English request whose question is detected as English. -/
def reqAmQuestion : AskRequest :=
  { question := "What fertilizer suits tomatoes?", lang := "am",
    location := "", latitude := none, longitude := none }

/-- Witness for C10: lang "am" with detected language "en" yields an
answer translated from "en" to "en", hence returned in English. -/
theorem C10_back_translation_destination_witness :
    (ask_question envIdEn reqAmQuestion).1 =
      AskResult.ok (clean_text (rawAnswer envIdEn reqAmQuestion
        ["chunk one"])) ["source1", "source2"] :=
  (C10_back_translation_destination envIdEn reqAmQuestion ["chunk one"]
    (by decide) (by decide) (by decide) rfl (by decide)
    (Or.inl (by decide))).2.2.2 rfl (fun t => by
      show (if ("en" : String) = "en" then t else "[" ++ "en" ++ "]" ++ t) = t
      rw [if_pos rfl])
